import Mathlib

set_option maxHeartbeats 1000000

/-!
Shallow embedding of the message-relay logic of `adapter/__main__.py` and the
message constants of `adapter/util.py` from the sublime_debugger-3dsMax
repository.

The relay sits between a DAP front-end (the "debugger") and a ptvsd backend.
Its two entry points are `on_receive_from_debugger` (front-end to backend
direction) and `on_receive_from_ptvsd` (backend to front-end direction); both
read and mutate a handful of module-level globals, modelled here as the fields
of `RelayState`.  Queue puts are modelled as output lists: `toDebugger` for
`debugger_queue.put` (messages the front-end will observe) and `toPtvsd` for
`ptvsd_send_queue.put` (messages sent toward the backend).

Only the JSON fields the relay code actually inspects are modelled; the two
`body` subfields it reads (`body.reason`, `body.variables`) are flattened into
the message record.  Python `dict.get(k, d)` becomes `Option.getD`.  Events in
the source are accessed as `c['body']` without a guard, so a bodyless stopped
event would raise in Python; such messages are outside the model (every claim
concerns events that carry a body).
-/

/-- One entry of a `variables` response body: `var['name']` plus the rest of
the entry, abstracted as an opaque payload (dict equality in Python becomes
structural equality here, which is faithful because two equal dicts agree on
their `name` key). -/
structure VarEntry where
  name : String
  payload : String
deriving DecidableEq, Repr

/-- The top-level JSON fields of a DAP message that the relay inspects.
`body_reason` stands for `body.reason` and `body_variables` for
`body.variables`. -/
structure Msg where
  seq : Option Int := none
  request_seq : Option Int := none
  msgtype : Option String := none
  command : Option String := none
  event : Option String := none
  success : Option Bool := none
  body_reason : Option String := none
  body_variables : Option (List VarEntry) := none
deriving DecidableEq, Repr

/-- The module-level mutable globals of `adapter/__main__.py` that the two
receive handlers read or write. -/
structure RelayState where
  last_seq : Option Int
  processed_seqs : List Int
  inv_seq : Int
  artificial_seqs : List Int
  waiting_for_pause_event : Bool
  avoiding_continue_stall : Bool
  stashed_event : Option Msg
deriving DecidableEq, Repr

/-- The initial values of the globals (lines 28-44 of `adapter/__main__.py`):
`last_seq = -1`, `processed_seqs = []`,
`inv_seq = 9223372036854775806`, `artificial_seqs = []`,
`waiting_for_pause_event = False`, `avoiding_continue_stall = False`,
`stashed_event = None`. -/
def initialState : RelayState :=
  { last_seq := some (-1)
    processed_seqs := []
    inv_seq := 9223372036854775806
    artificial_seqs := []
    waiting_for_pause_event := false
    avoiding_continue_stall := false
    stashed_event := none }

/-- Result of one handler invocation: the new globals plus the messages put on
`debugger_queue` (read by the front-end) and on `ptvsd_send_queue` (sent to the
backend), in put order. -/
structure HandlerResult where
  state : RelayState
  toDebugger : List Msg := []
  toPtvsd : List Msg := []
deriving DecidableEq, Repr

/-- The canned response `INITIALIZE_RESPONSE` of `adapter/util.py` (lines
78-115), with its fixed capability body abstracted away: `seq = 1`,
`request_seq = 1`, `success = true`, `command = "initialize"`,
`type = "response"`. -/
def INITIALIZE_RESPONSE : Msg :=
  { seq := some 1
    request_seq := some 1
    msgtype := some "response"
    command := some "initialize"
    success := some true }

/-- The synthetic pause request `PAUSE_REQUEST.format(seq=...)` of
`adapter/util.py` (lines 134-141): `command = "pause"`, the given `seq`,
`type = "request"`. -/
def PAUSE_REQUEST (seq : Int) : Msg :=
  { seq := some seq
    msgtype := some "request"
    command := some "pause" }

/-- `on_receive_from_debugger` (lines 64-108 of `adapter/__main__.py`).
`last_seq = contents.get('seq')`; then on `initialize` the canned response is
put on the debugger queue and the seq appended to `processed_seqs`; on
`attach` the arguments are rewritten and the attach sequence started (the
arguments and the side effects are not modelled: no field of the model depends
on them); on `continue` the `avoiding_continue_stall` flag is set.  In every
case line 108 then puts the (possibly rewritten) message on the ptvsd send
queue.  `contents['seq']` would raise on a seq-less message, so the `getD 0`
default in the `processed_seqs` append is never exercised on messages the
source accepts (front-end requests always carry `seq`). -/
def on_receive_from_debugger (s : RelayState) (m : Msg) : HandlerResult :=
  let s1 : RelayState := { s with last_seq := m.seq }
  if m.command.getD "" = "initialize" then
    { state := { s1 with processed_seqs := s1.processed_seqs ++ [m.seq.getD 0] }
      toDebugger := [INITIALIZE_RESPONSE]
      toPtvsd := [m] }
  else if m.command.getD "" = "attach" then
    { state := s1, toPtvsd := [m] }
  else if m.command.getD "" = "continue" then
    { state := { s1 with avoiding_continue_stall := true }, toPtvsd := [m] }
  else
    { state := s1, toPtvsd := [m] }

/-- The tuple of names hidden from `variables` responses (line 328 of
`adapter/__main__.py`). -/
def hiddenNames : List String :=
  ["__builtins__", "__doc__", "__file__", "__name__", "__package__"]

/-- `var['name'] in ('__builtins__', '__doc__', '__file__', '__name__',
'__package__')`. -/
def isHidden (v : VarEntry) : Bool :=
  hiddenNames.contains v.name

/-- Python `list.remove(v)`: removes the first element equal to `v`.  (On a
list not containing `v` Python raises ValueError; the source only ever removes
elements just collected from the list, so that case is unreachable and the
model returns the list unchanged.) -/
def pyRemove : List VarEntry → VarEntry → List VarEntry
  | [], _ => []
  | x :: xs, v => if x = v then xs else x :: pyRemove xs v

/-- The removal loop `for var in toremove: vars.remove(var)` (lines 330-331). -/
def removeAll (vs : List VarEntry) (toremove : List VarEntry) : List VarEntry :=
  toremove.foldl pyRemove vs

/-- The `variables` branch (lines 322-332): if the body has a non-empty
`variables` list (`if vars:` is false for `None` and for `[]`), collect the
entries with hidden names and remove each from the list, then re-serialize the
message. -/
def filterVariables (m : Msg) : Msg :=
  match m.body_variables with
  | some vs =>
      if vs = [] then m
      else { m with body_variables := some (removeAll vs (vs.filter isHidden)) }
  | none => m

/-- The final forwarding rule (lines 380-386): a message whose `request_seq`
(default `-1`) is in `processed_seqs` is logged and dropped; any other message
is put on the debugger queue. -/
def defaultForward (s : RelayState) (m : Msg) : HandlerResult :=
  if m.request_seq.getD (-1) ∈ s.processed_seqs then
    { state := s }
  else
    { state := s, toDebugger := [m] }

/-- `on_receive_from_ptvsd` (lines 307-386 of `adapter/__main__.py`).  The
branches, in source order:
1. `configurationDone`: triggers code injection (a side effect outside the
   relay state) and falls through to the final forwarding rule;
2. `variables`: hidden entries are removed, then falls through;
3. a `stopped` event with reason `step`: mint `inv_seq`, enqueue a synthetic
   pause request toward the backend, append the seq to `artificial_seqs`,
   decrement `inv_seq`, forward nothing (early return);
4. `request_seq` in `artificial_seqs`: set `waiting_for_pause_event` on
   `success`, forward nothing (early return) — the seq is never removed;
5. `waiting_for_pause_event` and a `stopped/pause` event: clear the flag,
   rewrite the reason to `step`, fall through;
6. `avoiding_continue_stall` and a `stopped/breakpoint` event: stash the
   message (overwriting any previous stash), forward nothing (early return);
7. `avoiding_continue_stall` and a `continued` event: clear the flag; if a
   stash is pending, forward the `continued` message then the stash and
   return; otherwise fall through;
8. otherwise fall through to `defaultForward`.
The source's locals `cmd = c.get('command', '')` and
`seq = int(c.get('request_seq', -1))` are inlined at their use sites. -/
def on_receive_from_ptvsd (s : RelayState) (m : Msg) : HandlerResult :=
  if m.command.getD "" = "configurationDone" then
    defaultForward s m
  else if m.command.getD "" = "variables" then
    defaultForward s (filterVariables m)
  else if m.event.getD "" = "stopped" ∧ m.body_reason.getD "" = "step" then
    { state := { s with
        artificial_seqs := s.artificial_seqs ++ [s.inv_seq]
        inv_seq := s.inv_seq - 1 }
      toPtvsd := [PAUSE_REQUEST s.inv_seq] }
  else if m.request_seq.getD (-1) ∈ s.artificial_seqs then
    { state :=
        if m.success.getD false then { s with waiting_for_pause_event := true }
        else s }
  else if s.waiting_for_pause_event = true ∧ m.event.getD "" = "stopped" ∧
      m.body_reason.getD "" = "pause" then
    defaultForward { s with waiting_for_pause_event := false }
      { m with body_reason := some "step" }
  else if s.avoiding_continue_stall = true ∧ m.event.getD "" = "stopped" ∧
      m.body_reason.getD "" = "breakpoint" then
    { state := { s with stashed_event := some m } }
  else if s.avoiding_continue_stall = true ∧ m.event.getD "" = "continued" then
    let s1 : RelayState := { s with avoiding_continue_stall := false }
    match s.stashed_event with
    | some e =>
        { state := { s1 with stashed_event := none }, toDebugger := [m, e] }
    | none => defaultForward s1 m
  else
    defaultForward s m

/-! Framing of messages sent to the backend (`ptvsd_send_loop`, lines 287-304):
`socket.send(bytes('Content-Length: {}\x7b\x7d...'.format(len(msg)) ...))` —
the header carries `len(msg)`, the number of characters of the Python string,
while the payload is sent as `bytes(msg, 'UTF-8')`. -/

/-- The UTF-8 encoding of one Unicode code point (as byte values). -/
def utf8EncodeChar (c : Nat) : List Nat :=
  if c < 128 then [c]
  else if c < 2048 then [192 + c / 64, 128 + c % 64]
  else if c < 65536 then [224 + c / 4096, 128 + (c / 64) % 64, 128 + c % 64]
  else [240 + c / 262144, 128 + (c / 4096) % 64, 128 + (c / 64) % 64, 128 + c % 64]

/-- `bytes(s, 'UTF-8')`: the UTF-8 byte sequence of a string given as its list
of code points. -/
def utf8Encode (msg : List Nat) : List Nat :=
  (msg.map utf8EncodeChar).flatten

/-- The code points of a Lean string literal (used for the header text). -/
def strCodes (s : String) : List Nat :=
  s.toList.map Char.toNat

/-- The header text `'Content-Length: {}\r\n\r\n'.format(n)`. -/
def headerText (n : Nat) : String :=
  "Content-Length: " ++ toString n ++ "\r\n\r\n"

/-- The byte sequence `ptvsd_send_loop` writes for one message (lines 299-300):
header bytes with `N = len(msg)` (the character count), then the UTF-8 bytes
of the payload. -/
def sentFrame (msg : List Nat) : List Nat :=
  utf8Encode (strCodes (headerText msg.length)) ++ utf8Encode msg

/-- Modelled from the spec: the frame the spec describes, in which `N is the
exact byte length of the UTF-8-encoded JSON payload`. -/
def specFrame (msg : List Nat) : List Nat :=
  utf8Encode (strCodes (headerText (utf8Encode msg).length)) ++ utf8Encode msg

/-! Decoding of backend frames (`start_debugging`, lines 258-284).  After the
header loop has parsed `content_length`, the source runs

    total_content = ""
    while content_length > 0:
        content = fstream.read(content_length)
        content_length -= len(content)
        total_content += content

`fstream.read(n)` on a stream with `k` bytes left returns `min n k` bytes (and
the empty string once the stream is exhausted).  The loop is modelled with
explicit fuel: `none` means the loop has not finished within `fuel`
iterations. -/

/-- The content-reading loop, fuel-bounded: arguments are remaining fuel,
`content_length`, `total_content` so far, and the unread rest of the stream.
Returns the accumulated content and the remaining stream on normal exit. -/
def readContentLoop : Nat → Nat → List Nat → List Nat → Option (List Nat × List Nat)
  | _, 0, acc, stream => some (acc, stream)
  | 0, _ + 1, _, _ => none
  | fuel + 1, n + 1, acc, stream =>
      let content := stream.take (n + 1)
      readContentLoop fuel (n + 1 - content.length) (acc ++ content) (stream.drop (n + 1))

/-- The loop never finishes, whatever iteration bound it is given. -/
def neverCompletes (contentLength : Nat) (stream : List Nat) : Prop :=
  ∀ fuel, readContentLoop fuel contentLength [] stream = none

/-! Helper lemmas. -/

/-- `list.remove` keeps a head that differs from the removed element. -/
theorem pyRemove_cons_ne (x v : VarEntry) (xs : List VarEntry) (h : x ≠ v) :
    pyRemove (x :: xs) v = x :: pyRemove xs v := by
  simp [pyRemove, h]

/-- Removing only elements that satisfy `p` keeps a head with `p x = false`. -/
theorem removeAll_cons (x : VarEntry) (p : VarEntry → Bool)
    (toremove : List VarEntry)
    (hall : ∀ v ∈ toremove, p v = true) (hx : p x = false) :
    ∀ xs, removeAll (x :: xs) toremove = x :: removeAll xs toremove := by
  induction toremove with
  | nil => intro xs; rfl
  | cons v tr ih =>
      intro xs
      have hv : p v = true := hall v (List.mem_cons_self v tr)
      have hne : x ≠ v := by
        intro hxv
        rw [hxv, hv] at hx
        cases hx
      show removeAll (pyRemove (x :: xs) v) tr = x :: removeAll (pyRemove xs v) tr
      rw [pyRemove_cons_ne x v xs hne]
      exact ih (fun w hw => hall w (List.mem_cons_of_mem v hw)) (pyRemove xs v)

/-- The source's collect-then-remove loop is exactly a filter: removing the
sublist of elements satisfying `p` leaves the elements not satisfying `p`, in
their original order. -/
theorem removeAll_filter (p : VarEntry → Bool) (vs : List VarEntry) :
    removeAll vs (vs.filter p) = vs.filter (fun v => !(p v)) := by
  induction vs with
  | nil => rfl
  | cons x xs ih =>
      cases hx : p x with
      | true =>
          rw [List.filter_cons_of_pos hx]
          show removeAll (pyRemove (x :: xs) x) (xs.filter p)
            = List.filter (fun v => !(p v)) (x :: xs)
          have hrem : pyRemove (x :: xs) x = xs := by simp [pyRemove]
          rw [hrem, ih, List.filter_cons_of_neg (by simp [hx])]
      | false =>
          rw [List.filter_cons_of_neg (by simp [hx]),
            removeAll_cons x p (xs.filter p)
              (fun v hv => (List.mem_filter.mp hv).2) hx xs,
            ih, List.filter_cons_of_pos (by simp [hx])]

/-- The `variables` rewrite in closed form: the kept entries are exactly the
non-hidden ones, in order. -/
theorem filterVariables_eq (m : Msg) (vs : List VarEntry)
    (h : m.body_variables = some vs) :
    filterVariables m
      = { m with body_variables := some (vs.filter (fun v => !(isHidden v))) } := by
  by_cases hvs : vs = []
  · subst hvs
    cases m
    simp_all [filterVariables]
  · simp [filterVariables, h, hvs, removeAll_filter]

/-- The `variables` rewrite does not touch `request_seq`. -/
theorem filterVariables_request_seq (m : Msg) :
    (filterVariables m).request_seq = m.request_seq := by
  unfold filterVariables
  cases m.body_variables with
  | none => rfl
  | some vs =>
      by_cases hvs : vs = [] <;> simp [hvs]

/-- A message correlated to an already-processed seq is dropped by the final
forwarding rule. -/
theorem defaultForward_drop (s : RelayState) (m : Msg)
    (h : m.request_seq.getD (-1) ∈ s.processed_seqs) :
    (defaultForward s m).toDebugger = [] := by
  simp [defaultForward, h]

/-- Claim C1, counterexample: the claim says a front-end `initialize` request
is never forwarded to the backend, but `on_receive_from_debugger`
unconditionally puts the incoming message on the ptvsd send queue (line 108 of
`adapter/__main__.py`), so the concrete request with seq 5 does reach the
backend queue. -/
theorem c1_counterexample :
    (on_receive_from_debugger initialState
        { seq := some 5, command := some "initialize" }).toPtvsd
      = [{ seq := some 5, command := some "initialize" }] ∧
    (on_receive_from_debugger initialState
        { seq := some 5, command := some "initialize" }).toPtvsd ≠ [] := by
  refine ⟨rfl, ?_⟩
  decide

/-- Claim C1, amended: for every front-end `initialize` request the relay
sends the canned success response directly to the front-end and records the
request's seq in the Processed-Seq Set exactly once, but it also places the
request on the backend send queue like every other front-end message. -/
theorem c1_amended (s : RelayState) (m : Msg) (q : Int)
    (hc : m.command = some "initialize") (hq : m.seq = some q) :
    (on_receive_from_debugger s m).toDebugger = [INITIALIZE_RESPONSE] ∧
    (on_receive_from_debugger s m).state.processed_seqs
      = s.processed_seqs ++ [q] ∧
    (on_receive_from_debugger s m).state.processed_seqs.count q
      = s.processed_seqs.count q + 1 ∧
    (on_receive_from_debugger s m).toPtvsd = [m] := by
  simp [on_receive_from_debugger, hc, hq]

/-- Claim C1, witness: the amended statement evaluated on the request with
seq 7 from the pristine initial state. -/
theorem c1_witness :
    (on_receive_from_debugger initialState
        { seq := some 7, command := some "initialize" }).toDebugger
      = [INITIALIZE_RESPONSE] ∧
    (on_receive_from_debugger initialState
        { seq := some 7, command := some "initialize" }).state.processed_seqs
      = [7] := by
  have h := c1_amended initialState
    { seq := some 7, command := some "initialize" } 7 rfl rfl
  exact ⟨h.1, by simpa using h.2.1⟩

/-- Claim C2: a backend `stopped` event with reason `step` is swallowed (the
front-end sees nothing) and exactly one synthetic pause request with seq
`inv_seq` is enqueued toward the backend; `inv_seq` is appended to the
outstanding artificial seqs and decremented.  Under the pool invariant (the
counter is strictly below every previously minted seq — true initially, since
no seq has been minted, and preserved by the step) the minted seq was never
minted before and is strictly smaller than every previously minted seq, and
any value strictly below the current counter (in particular any front-end seq,
which start at 1) never collides with a minted seq.  The pool starts at
9223372036854775806 = 2^63 - 2, just below the maximum 64-bit signed integer
2^63 - 1. -/
theorem c2_minting (s : RelayState) (m : Msg)
    (hc : m.command = none)
    (he : m.event = some "stopped") (hr : m.body_reason = some "step")
    (hinv : ∀ x ∈ s.artificial_seqs, s.inv_seq < x) :
    (on_receive_from_ptvsd s m).toDebugger = [] ∧
    (on_receive_from_ptvsd s m).toPtvsd = [PAUSE_REQUEST s.inv_seq] ∧
    (on_receive_from_ptvsd s m).state.artificial_seqs
      = s.artificial_seqs ++ [s.inv_seq] ∧
    (on_receive_from_ptvsd s m).state.inv_seq = s.inv_seq - 1 ∧
    s.inv_seq ∉ s.artificial_seqs ∧
    (∀ x ∈ s.artificial_seqs, s.inv_seq < x) ∧
    (∀ x ∈ (on_receive_from_ptvsd s m).state.artificial_seqs,
      (on_receive_from_ptvsd s m).state.inv_seq < x) ∧
    (∀ f : Int, f < s.inv_seq →
      f ∉ (on_receive_from_ptvsd s m).state.artificial_seqs) ∧
    initialState.inv_seq = 9223372036854775806 ∧
    (9223372036854775806 : Int) = 2 ^ 63 - 2 := by
  have hred : on_receive_from_ptvsd s m =
      { state := { s with
          artificial_seqs := s.artificial_seqs ++ [s.inv_seq]
          inv_seq := s.inv_seq - 1 }
        toPtvsd := [PAUSE_REQUEST s.inv_seq] } := by
    simp [on_receive_from_ptvsd, hc, he, hr]
  rw [hred]
  dsimp only
  refine ⟨rfl, rfl, rfl, rfl, ?_, hinv, ?_, ?_, rfl, by norm_num⟩
  · intro hmem
    exact absurd (hinv _ hmem) (lt_irrefl _)
  · intro x hx
    rcases List.mem_append.mp hx with h1 | h1
    · have := hinv _ h1
      omega
    · simp only [List.mem_singleton] at h1
      omega
  · intro f hf hmem
    rcases List.mem_append.mp hmem with h1 | h1
    · have := hinv _ h1
      omega
    · simp only [List.mem_singleton] at h1
      omega

/-- Claim C2, witness: the first stall seen from the initial state mints the
pool ceiling 9223372036854775806 and nothing is forwarded to the front-end. -/
theorem c2_witness :
    (on_receive_from_ptvsd initialState
        { event := some "stopped", body_reason := some "step" }).toPtvsd
      = [PAUSE_REQUEST 9223372036854775806] ∧
    (on_receive_from_ptvsd initialState
        { event := some "stopped", body_reason := some "step" }).toDebugger
      = [] := by
  have h := c2_minting initialState
    { event := some "stopped", body_reason := some "step" } rfl rfl rfl
    (by intro x hx; simp [initialState] at hx)
  exact ⟨by simpa [initialState] using h.2.1, h.1⟩

/-- Claim C3: for a front-end `continue` request followed by a backend
`stopped/breakpoint` event and then a backend `continued` event, the front-end
observes nothing at the first two steps and then exactly the pair
`continued` followed by the `stopped/breakpoint` event — the reordered pair,
never the reverse and never just one of the two.  The only framing assumption
is that `-1` (the default correlation of an event without `request_seq`) is
not an outstanding artificial seq, which holds throughout a session because
artificial seqs are minted near 2^63. -/
theorem c3_continue_stall_reorder (s : RelayState) (mc mb mk : Msg)
    (hcc : mc.command = some "continue")
    (hbc : mb.command = none) (hbe : mb.event = some "stopped")
    (hbr : mb.body_reason = some "breakpoint") (hbs : mb.request_seq = none)
    (hkc : mk.command = none) (hke : mk.event = some "continued")
    (hks : mk.request_seq = none)
    (hA : (-1 : Int) ∉ s.artificial_seqs) :
    (on_receive_from_debugger s mc).toDebugger = [] ∧
    (on_receive_from_ptvsd (on_receive_from_debugger s mc).state mb).toDebugger
      = [] ∧
    (on_receive_from_ptvsd
        (on_receive_from_ptvsd (on_receive_from_debugger s mc).state mb).state
        mk).toDebugger
      = [mk, mb] ∧
    (on_receive_from_ptvsd
        (on_receive_from_ptvsd (on_receive_from_debugger s mc).state mb).state
        mk).state.stashed_event
      = none := by
  have e1 : on_receive_from_debugger s mc =
      { state := { s with
          last_seq := mc.seq
          avoiding_continue_stall := true }
        toPtvsd := [mc] } := by
    simp [on_receive_from_debugger, hcc]
  have e2 : on_receive_from_ptvsd
      { s with
        last_seq := mc.seq
        avoiding_continue_stall := true } mb =
      { state := { s with
          last_seq := mc.seq
          avoiding_continue_stall := true
          stashed_event := some mb } } := by
    simp [on_receive_from_ptvsd, hbc, hbe, hbr, hbs, hA]
  have e3 : on_receive_from_ptvsd
      { s with
        last_seq := mc.seq
        avoiding_continue_stall := true
        stashed_event := some mb } mk =
      { state := { s with
          last_seq := mc.seq
          avoiding_continue_stall := false
          stashed_event := none }
        toDebugger := [mk, mb] } := by
    simp [on_receive_from_ptvsd, hkc, hke, hks, hA]
  rw [e1]
  dsimp only
  rw [e2]
  dsimp only
  rw [e3]
  exact ⟨rfl, rfl, rfl, rfl⟩

/-- Claim C3, witness: the three-step scenario evaluated on concrete messages
from the initial state. -/
theorem c3_witness :
    (on_receive_from_ptvsd
        (on_receive_from_ptvsd
          (on_receive_from_debugger initialState
            { seq := some 9, command := some "continue" }).state
          { event := some "stopped", body_reason := some "breakpoint" }).state
        { event := some "continued" }).toDebugger
      = [{ event := some "continued" },
         { event := some "stopped", body_reason := some "breakpoint" }] := by
  have h := c3_continue_stall_reorder initialState
    { seq := some 9, command := some "continue" }
    { event := some "stopped", body_reason := some "breakpoint" }
    { event := some "continued" }
    rfl rfl rfl rfl rfl rfl rfl rfl (by simp [initialState])
  exact h.2.2.1

/-- Claim C4: with `waiting_for_pause_event` set, an inbound backend
`stopped/pause` event clears the flag and is forwarded exactly once with its
reason rewritten to `step`; nothing is sent toward the backend and no message
with reason `pause` ever reaches the front-end at this step.  Framing
assumptions: the event carries no `request_seq` (so its correlation defaults
to `-1`) and `-1` is neither an outstanding artificial seq nor a processed
seq, as in any reachable session state. -/
theorem c4_pause_rewrite (s : RelayState) (m : Msg)
    (hc : m.command = none) (he : m.event = some "stopped")
    (hr : m.body_reason = some "pause") (hs : m.request_seq = none)
    (hw : s.waiting_for_pause_event = true)
    (hA : (-1 : Int) ∉ s.artificial_seqs)
    (hP : (-1 : Int) ∉ s.processed_seqs) :
    (on_receive_from_ptvsd s m).toDebugger
      = [{ m with body_reason := some "step" }] ∧
    (on_receive_from_ptvsd s m).toPtvsd = [] ∧
    (on_receive_from_ptvsd s m).state.waiting_for_pause_event = false ∧
    ∀ x ∈ (on_receive_from_ptvsd s m).toDebugger,
      x.body_reason ≠ some "pause" := by
  have hred : on_receive_from_ptvsd s m =
      { state := { s with waiting_for_pause_event := false }
        toDebugger := [{ m with body_reason := some "step" }] } := by
    simp [on_receive_from_ptvsd, defaultForward, hc, he, hr, hs, hw, hA, hP]
  rw [hred]
  refine ⟨rfl, rfl, rfl, ?_⟩
  intro x hx
  simp only [List.mem_singleton] at hx
  subst hx
  simp

/-- Claim C4, witness: the rewrite evaluated on a concrete `stopped/pause`
event in a state that awaits stall recovery. -/
theorem c4_witness :
    (on_receive_from_ptvsd
        { initialState with waiting_for_pause_event := true }
        { event := some "stopped", body_reason := some "pause" }).toDebugger
      = [{ event := some "stopped", body_reason := some "step" }] := by
  have h := c4_pause_rewrite
    { initialState with waiting_for_pause_event := true }
    { event := some "stopped", body_reason := some "pause" }
    rfl rfl rfl rfl rfl (by simp [initialState]) (by simp [initialState])
  exact h.1

/-- Claim C5, counterexample: the claim says a backend message matching an
outstanding artificial seq removes that seq from the outstanding set, but the
`elif seq in artificial_seqs` branch (lines 346-352) never mutates
`artificial_seqs`: after a successful pause response the seq is still
outstanding.  (A second concrete run shows the flag clause is also one-sided:
an unsuccessful response leaves an already-set `waiting_for_pause_event`
untouched rather than making it track `success`.) -/
theorem c5_counterexample :
    ((on_receive_from_ptvsd
          { initialState with artificial_seqs := [9223372036854775806] }
          { request_seq := some 9223372036854775806
            command := some "pause"
            success := some true }).state.artificial_seqs
        = [9223372036854775806]) ∧
    (9223372036854775806 : Int) ∈
      (on_receive_from_ptvsd
          { initialState with artificial_seqs := [9223372036854775806] }
          { request_seq := some 9223372036854775806
            command := some "pause"
            success := some true }).state.artificial_seqs ∧
    ((on_receive_from_ptvsd
          { initialState with
            artificial_seqs := [9223372036854775806]
            waiting_for_pause_event := true }
          { request_seq := some 9223372036854775806
            command := some "pause"
            success := some false }).state.waiting_for_pause_event
        = true) := by
  refine ⟨by decide, by decide, by decide⟩

/-- Claim C5, amended: for every inbound backend message whose `request_seq`
matches an outstanding artificial seq, the relay leaves the outstanding set
unchanged (the seq is never removed; since minted seqs are never reused the
set only grows), sets `awaiting_stall_recovery` to true if the `success` field
is true and leaves it unchanged otherwise, and forwards nothing in either
direction. -/
theorem c5_amended (s : RelayState) (m : Msg) (q : Int)
    (hq : m.request_seq = some q) (hmem : q ∈ s.artificial_seqs)
    (hc1 : m.command.getD "" ≠ "configurationDone")
    (hc2 : m.command.getD "" ≠ "variables")
    (he : m.event = none) :
    (on_receive_from_ptvsd s m).toDebugger = [] ∧
    (on_receive_from_ptvsd s m).toPtvsd = [] ∧
    (on_receive_from_ptvsd s m).state.artificial_seqs = s.artificial_seqs ∧
    q ∈ (on_receive_from_ptvsd s m).state.artificial_seqs ∧
    (on_receive_from_ptvsd s m).state.waiting_for_pause_event
      = (s.waiting_for_pause_event || m.success.getD false) := by
  have hred : on_receive_from_ptvsd s m =
      { state :=
          if m.success.getD false then
            { s with waiting_for_pause_event := true }
          else s } := by
    simp [on_receive_from_ptvsd, hq, hmem, hc1, hc2, he]
  rw [hred]
  cases hsucc : m.success.getD false <;>
    simp [hsucc, hmem]

/-- Claim C5, witness: the amended statement evaluated on a successful pause
response matching the single outstanding artificial seq. -/
theorem c5_witness :
    (on_receive_from_ptvsd
        { initialState with artificial_seqs := [9223372036854775805] }
        { request_seq := some 9223372036854775805
          command := some "pause"
          success := some true }).state.waiting_for_pause_event = true ∧
    (on_receive_from_ptvsd
        { initialState with artificial_seqs := [9223372036854775805] }
        { request_seq := some 9223372036854775805
          command := some "pause"
          success := some true }).toDebugger = [] := by
  have h := c5_amended
    { initialState with artificial_seqs := [9223372036854775805] }
    { request_seq := some 9223372036854775805
      command := some "pause"
      success := some true }
    9223372036854775805 rfl (by simp) (by simp) (by simp) rfl
  exact ⟨by simpa [initialState] using h.2.2.2.2, h.1⟩

/-- Claim C6, counterexample: the claim says a backend message whose
`request_seq` is in the Processed-Seq Set is never forwarded, but the
continue-stall release branch (lines 367-378) forwards without consulting
`processed_seqs`: a `continued` event correlated to processed seq 1, arriving
while `avoiding_continue_stall` is set with a pending stash, is forwarded
(followed by the stash). -/
theorem c6_counterexample :
    (({ event := some "continued", request_seq := some 1 } : Msg).request_seq.getD (-1)
        ∈ ({ initialState with
              processed_seqs := [1]
              avoiding_continue_stall := true
              stashed_event := some { event := some "stopped"
                                      body_reason := some "breakpoint" } }
            : RelayState).processed_seqs) ∧
    (on_receive_from_ptvsd
        { initialState with
          processed_seqs := [1]
          avoiding_continue_stall := true
          stashed_event := some { event := some "stopped"
                                  body_reason := some "breakpoint" } }
        { event := some "continued", request_seq := some 1 }).toDebugger
      ≠ [] := by
  refine ⟨by decide, by decide⟩

/-- Claim C6, amended: for every inbound backend message whose `request_seq`
is in the Processed-Seq Set, the relay forwards nothing to the front-end at
that step, unless the message is consumed by the continue-stall machinery: a
`continued` event arriving while `avoiding_continue_stall` is set with a
pending stash is forwarded without the Processed-Seq check (and a
`stopped/breakpoint` event stashed during avoidance is likewise released later
without the check). -/
theorem c6_amended (s : RelayState) (m : Msg)
    (h1 : m.request_seq.getD (-1) ∈ s.processed_seqs)
    (h2 : ¬(s.avoiding_continue_stall = true ∧ m.event.getD "" = "continued" ∧
        s.stashed_event ≠ none)) :
    (on_receive_from_ptvsd s m).toDebugger = [] := by
  by_cases hA : m.command.getD "" = "configurationDone"
  · unfold on_receive_from_ptvsd
    rw [if_pos hA]
    exact defaultForward_drop s m h1
  by_cases hB : m.command.getD "" = "variables"
  · unfold on_receive_from_ptvsd
    rw [if_neg hA, if_pos hB]
    exact defaultForward_drop s (filterVariables m)
      (by rwa [filterVariables_request_seq])
  by_cases hC : m.event.getD "" = "stopped" ∧ m.body_reason.getD "" = "step"
  · unfold on_receive_from_ptvsd
    rw [if_neg hA, if_neg hB, if_pos hC]
  by_cases hD : m.request_seq.getD (-1) ∈ s.artificial_seqs
  · unfold on_receive_from_ptvsd
    rw [if_neg hA, if_neg hB, if_neg hC, if_pos hD]
  by_cases hE : s.waiting_for_pause_event = true ∧ m.event.getD "" = "stopped" ∧
      m.body_reason.getD "" = "pause"
  · unfold on_receive_from_ptvsd
    rw [if_neg hA, if_neg hB, if_neg hC, if_neg hD, if_pos hE]
    exact defaultForward_drop _ _ h1
  by_cases hF : s.avoiding_continue_stall = true ∧ m.event.getD "" = "stopped" ∧
      m.body_reason.getD "" = "breakpoint"
  · unfold on_receive_from_ptvsd
    rw [if_neg hA, if_neg hB, if_neg hC, if_neg hD, if_neg hE, if_pos hF]
  by_cases hG : s.avoiding_continue_stall = true ∧ m.event.getD "" = "continued"
  · unfold on_receive_from_ptvsd
    rw [if_neg hA, if_neg hB, if_neg hC, if_neg hD, if_neg hE, if_neg hF,
      if_pos hG]
    cases hst : s.stashed_event with
    | some e => exact absurd ⟨hG.1, hG.2, by simp [hst]⟩ h2
    | none => exact defaultForward_drop _ _ h1
  · unfold on_receive_from_ptvsd
    rw [if_neg hA, if_neg hB, if_neg hC, if_neg hD, if_neg hE, if_neg hF,
      if_neg hG]
    exact defaultForward_drop _ _ h1

/-- Claim C6, witness: the amended statement evaluated on a backend response
correlated to the processed seq 1, with no continue-stall release pending. -/
theorem c6_witness :
    (on_receive_from_ptvsd
        { initialState with processed_seqs := [1] }
        { request_seq := some 1, command := some "pause" }).toDebugger
      = [] := by
  exact c6_amended
    { initialState with processed_seqs := [1] }
    { request_seq := some 1, command := some "pause" }
    (by decide) (by decide)

/-- Claim C7: while `avoiding_continue_stall` is set, two consecutive
stashable `stopped/breakpoint` events followed by the releasing `continued`
event produce no front-end output at the first two steps, the second event
overwrites the first in the single stash slot, and at release the front-end
receives exactly the `continued` event followed by the second stashed event;
the slot is then empty.  The slot is an `Option`, so it structurally holds at
most one event at every point. -/
theorem c7_stash_overwrite (s : RelayState) (e1 e2 mk : Msg)
    (h1c : e1.command = none) (h1e : e1.event = some "stopped")
    (h1r : e1.body_reason = some "breakpoint") (h1s : e1.request_seq = none)
    (h2c : e2.command = none) (h2e : e2.event = some "stopped")
    (h2r : e2.body_reason = some "breakpoint") (h2s : e2.request_seq = none)
    (hkc : mk.command = none) (hke : mk.event = some "continued")
    (hks : mk.request_seq = none)
    (hav : s.avoiding_continue_stall = true)
    (hA : (-1 : Int) ∉ s.artificial_seqs) :
    (on_receive_from_ptvsd s e1).toDebugger = [] ∧
    (on_receive_from_ptvsd s e1).state.stashed_event = some e1 ∧
    (on_receive_from_ptvsd (on_receive_from_ptvsd s e1).state e2).toDebugger
      = [] ∧
    (on_receive_from_ptvsd
        (on_receive_from_ptvsd s e1).state e2).state.stashed_event
      = some e2 ∧
    (on_receive_from_ptvsd
        (on_receive_from_ptvsd (on_receive_from_ptvsd s e1).state e2).state
        mk).toDebugger
      = [mk, e2] ∧
    (on_receive_from_ptvsd
        (on_receive_from_ptvsd (on_receive_from_ptvsd s e1).state e2).state
        mk).state.stashed_event
      = none := by
  have e1red : on_receive_from_ptvsd s e1 =
      { state := { s with stashed_event := some e1 } } := by
    simp [on_receive_from_ptvsd, h1c, h1e, h1r, h1s, hav, hA]
  have e2red : on_receive_from_ptvsd { s with stashed_event := some e1 } e2 =
      { state := { s with stashed_event := some e2 } } := by
    simp [on_receive_from_ptvsd, h2c, h2e, h2r, h2s, hav, hA]
  have e3red : on_receive_from_ptvsd { s with stashed_event := some e2 } mk =
      { state := { s with
          avoiding_continue_stall := false
          stashed_event := none }
        toDebugger := [mk, e2] } := by
    simp [on_receive_from_ptvsd, hkc, hke, hks, hav, hA]
  rw [e1red]
  dsimp only
  rw [e2red]
  dsimp only
  rw [e3red]
  exact ⟨rfl, rfl, rfl, rfl, rfl, rfl⟩

/-- Claim C7, witness: the overwrite scenario on two distinguishable concrete
breakpoint events. -/
theorem c7_witness :
    (on_receive_from_ptvsd
        (on_receive_from_ptvsd
          (on_receive_from_ptvsd
            { initialState with avoiding_continue_stall := true }
            { seq := some 100, event := some "stopped"
              body_reason := some "breakpoint" }).state
          { seq := some 101, event := some "stopped"
            body_reason := some "breakpoint" }).state
        { event := some "continued" }).toDebugger
      = [{ event := some "continued" },
         { seq := some 101, event := some "stopped"
           body_reason := some "breakpoint" }] := by
  have h := c7_stash_overwrite
    { initialState with avoiding_continue_stall := true }
    { seq := some 100, event := some "stopped"
      body_reason := some "breakpoint" }
    { seq := some 101, event := some "stopped"
      body_reason := some "breakpoint" }
    { event := some "continued" }
    rfl rfl rfl rfl rfl rfl rfl rfl rfl rfl rfl rfl (by simp [initialState])
  exact h.2.2.2.2.1

/-- UTF-8 encoding is the identity on ASCII code points. -/
theorem utf8Encode_ascii (msg : List Nat) (h : ∀ c ∈ msg, c < 128) :
    utf8Encode msg = msg := by
  induction msg with
  | nil => rfl
  | cons c cs ih =>
      have hc : c < 128 := h c (List.mem_cons_self c cs)
      have ih2 := ih (fun x hx => h x (List.mem_cons_of_mem _ hx))
      simp [utf8Encode, utf8EncodeChar, hc] at ih2 ⊢
      exact ih2

/-- Claim C8, counterexample: the claim says the declared length N is the
UTF-8 byte length of the payload, but the source writes `len(msg)`, the
code-point count.  For the one-character payload `"é"` (code point 233) the
code declares N = 1 while the UTF-8 payload is 2 bytes, so the emitted frame
differs from the one the claim describes. -/
theorem c8_counterexample :
    sentFrame [233] ≠ specFrame [233] ∧
    (utf8Encode [233]).length ≠ ([233] : List Nat).length := by
  refine ⟨by decide, by decide⟩

/-- Claim C8, amended: every frame sent to the backend is the ASCII header
`Content-Length: N` plus the blank line, followed by the UTF-8 bytes of the
payload, where N is the payload's code-point count; whenever the payload is
pure ASCII (as every `json.dumps`-produced message is) this equals the exact
UTF-8 byte length, so the frame is exactly the one the claim describes. -/
theorem c8_amended (msg : List Nat) (h : ∀ c ∈ msg, c < 128) :
    sentFrame msg = specFrame msg ∧
    (utf8Encode msg).length = msg.length ∧
    sentFrame msg
      = utf8Encode (strCodes (headerText (utf8Encode msg).length))
        ++ utf8Encode msg := by
  have he := utf8Encode_ascii msg h
  have hfr : sentFrame msg = specFrame msg := by
    unfold sentFrame specFrame
    rw [he]
  exact ⟨hfr, by rw [he], by rw [hfr]; rfl⟩

/-- Claim C8, witness: the amended statement on the ASCII payload `"hi"`
(code points 104, 105). -/
theorem c8_witness :
    sentFrame [104, 105] = specFrame [104, 105] := by
  exact (c8_amended [104, 105] (by decide)).1

/-- On an exhausted stream the content loop never makes progress: `read`
returns the empty string, `content_length` stays positive, and the loop spins
for any iteration bound. -/
theorem readContentLoop_nil (n : Nat) :
    ∀ fuel acc, readContentLoop fuel (n + 1) acc [] = none := by
  intro fuel
  induction fuel with
  | zero => intro acc; rfl
  | succ f ih =>
      intro acc
      show readContentLoop f (n + 1 - (List.take (n + 1) ([] : List Nat)).length)
          (acc ++ List.take (n + 1) ([] : List Nat))
          (List.drop (n + 1) ([] : List Nat)) = none
      simp only [List.take_nil, List.length_nil, Nat.sub_zero, List.append_nil,
        List.drop_nil]
      exact ih acc

/-- Claim C9: with a declared `Content-Length` of 10 but only 5 payload bytes
before the stream closes, the source's content-reading loop never terminates
(`fstream.read` returns the empty string at EOF, so `content_length` never
reaches 0): decoding neither fails with an error nor returns a short message —
it hangs, for every iteration bound. -/
theorem c9_truncated_read_hangs :
    neverCompletes 10 [48, 49, 50, 51, 52] := by
  intro fuel
  cases fuel with
  | zero => rfl
  | succ f =>
      show readContentLoop f 5 [48, 49, 50, 51, 52] [] = none
      exact readContentLoop_nil 4 f [48, 49, 50, 51, 52]

/-- Claim C10: a backend `variables` response whose body carries a variables
list is forwarded exactly once with every entry named `__builtins__`,
`__doc__`, `__file__`, `__name__` or `__package__` removed and all other
entries kept unchanged in their original order; if any hidden entry was
present the forwarded message differs from the inbound one (not verbatim).
Framing assumption: the response's correlation seq is not in the
Processed-Seq Set, which holds for every real `variables` response since only
the `initialize` seq is ever recorded there. -/
theorem c10_variables_filtered (s : RelayState) (m : Msg) (vs : List VarEntry)
    (hc : m.command = some "variables")
    (hv : m.body_variables = some vs)
    (hp : m.request_seq.getD (-1) ∉ s.processed_seqs) :
    (on_receive_from_ptvsd s m).toDebugger
      = [{ m with
            body_variables := some (vs.filter (fun v => !(isHidden v))) }] ∧
    (on_receive_from_ptvsd s m).toPtvsd = [] ∧
    (∀ v ∈ vs.filter (fun v => !(isHidden v)), isHidden v = false) ∧
    ((∃ v ∈ vs, isHidden v = true) →
      ({ m with body_variables := some (vs.filter (fun v => !(isHidden v))) }
          : Msg) ≠ m) := by
  have hfv := filterVariables_eq m vs hv
  have hred : on_receive_from_ptvsd s m =
      { state := s
        toDebugger :=
          [{ m with
              body_variables := some (vs.filter (fun v => !(isHidden v))) }] } := by
    unfold on_receive_from_ptvsd
    rw [if_neg (by simp [hc]), if_pos (by simp [hc]), hfv]
    unfold defaultForward
    rw [if_neg hp]
  rw [hred]
  refine ⟨rfl, rfl, ?_, ?_⟩
  · intro v hvm
    have := (List.mem_filter.mp hvm).2
    simpa using this
  · rintro ⟨v, hvm, hvh⟩ heq
    have hbv : some (vs.filter (fun v => !(isHidden v))) = some vs := by
      have := congrArg Msg.body_variables heq
      simpa [hv] using this
    have hfil : vs.filter (fun v => !(isHidden v)) = vs :=
      Option.some_injective _ hbv
    have hall := List.filter_eq_self.mp hfil v hvm
    rw [hvh] at hall
    simp at hall

/-- Claim C10, witness: a concrete `variables` response holding `__doc__`,
`x` and `__name__` is forwarded with only `x` left. -/
theorem c10_witness :
    (on_receive_from_ptvsd initialState
        { request_seq := some 4
          command := some "variables"
          body_variables := some
            [{ name := "__doc__", payload := "d" },
             { name := "x", payload := "1" },
             { name := "__name__", payload := "n" }] }).toDebugger
      = [{ request_seq := some 4
           command := some "variables"
           body_variables := some [{ name := "x", payload := "1" }] }] := by
  have h := c10_variables_filtered initialState
    { request_seq := some 4
      command := some "variables"
      body_variables := some
        [{ name := "__doc__", payload := "d" },
         { name := "x", payload := "1" },
         { name := "__name__", payload := "n" }] }
    [{ name := "__doc__", payload := "d" },
     { name := "x", payload := "1" },
     { name := "__name__", payload := "n" }]
    rfl rfl (by simp [initialState])
  rw [h.1]
  decide
